import Mathlib

/-!
Shallow embedding of `src/Master8.py`, a command encoder for the AMPI
Master-8 stimulator.  Python floats are modelled as rationals (`ℚ`);
the bytes written to the serial connection are modelled as the list of
ASCII tokens passed to `write` (which space-joins them); a Python
`AssertionError` from a failed `assert` is modelled by the `err` flag
of a `Trace`.  All arithmetic is performed on `Rat.num`/`Rat.den` with
integer operations so that every definition evaluates by kernel
reduction.
-/

namespace Master8

/-! ASCII codes for Master 8 keys (source lines 11-33). -/

def DURATION : String := "D"

def DURA : String := DURATION

def INTERVAL : String := "I"

def DELAY : String := "L"

def M : String := "M"

def V : String := "V"

def JUMP : String := "J"

def DELTAV : String := JUMP

def FREE_RUN : String := "F"

def FREE : String := FREE_RUN

def TRAIN : String := "N"

def TRIG : String := "G"

def DC : String := "C"

def GATE : String := "T"

def OFF : String := "O"

def TIMER : String := "W"

def ALL : String := "A"

def CLOCK_DISP : String := "Q"

def STOP_WATCH : String := "S"

def CLOCK_RESET : String := "R"

def CHECK : String := "H"

def CLEAR_DISP : String := "Y"

def CONNECT : String := "X"

def CNCT_DSCNCT : String := CONNECT

def DISCONNECT : String := "Z"

def ENTER : String := "E"

def BEGIN : String := "B"

/-! Integer channel-mode constants `cmOff, ..., cmGate = range(6)`
(source line 35). -/

def cmOff : ℤ := 0

def cmFreeRun : ℤ := 1

def cmTrain : ℤ := 2

def cmTrig : ℤ := 3

def cmDC : ℤ := 4

def cmGate : ℤ := 5

/-! Class attributes of `Master8` (source lines 56-61). -/

def paradigms : List ℤ := [1, 2, 3, 4, 5, 6, 7, 8]

def channels : List ℤ := [1, 2, 3, 4, 5, 6, 7, 8]

def cmList : List ℤ := [0, 1, 2, 3, 4, 5]

def modes : List String := [OFF, FREE_RUN, TRAIN, TRIG, DC, GATE]

/-- Trace of one encoder call: the ASCII tokens handed to `write`
before the call returned or raised, and whether it raised
(`AssertionError` from a failed `assert`). -/
structure Trace where
  written : List String
  err : Bool
deriving DecidableEq, Repr

/-- Successful emission of a list of tokens. -/
def emit (args : List String) : Trace := ⟨args, false⟩

/-- A failed `assert`: nothing written by this step, error raised. -/
def failed : Trace := ⟨[], true⟩

/-- Sequencing of two steps: if the first raised, the second never
runs; otherwise outputs concatenate and the error flag is the
second's. -/
def seq (t1 t2 : Trace) : Trace :=
  if t1.err then t1 else ⟨t1.written ++ t2.written, t2.err⟩

/-! Numeric helpers.  Python's `"%.{res}f"` formatting rounds the value
to `res` decimals (ties to even), and Python 2's `round` builtin rounds
ties away from zero. -/

/-- Round-half-even of the fraction `num / den` (`den > 0`), as used by
fixed-point `format`. -/
def rndHalfEvenInt (num : ℤ) (den : ℕ) : ℤ :=
  let q := Int.fdiv num den
  let r := num - q * den
  if 2 * r < (den : ℤ) then q
  else if (den : ℤ) < 2 * r then q + 1
  else if q % 2 = 0 then q else q + 1

/-- Left-pad a digit string with zeros to width `n`. -/
def padLeft (s : String) (n : ℕ) : String :=
  String.mk (List.replicate (n - s.length) '0') ++ s

/-- Python `str.rstrip(c)` for a single strip character. -/
def rstripChar (s : String) (c : Char) : String :=
  String.mk ((s.data.reverse.dropWhile (fun a => a = c)).reverse)

/-- Python `"{0:0.{res}f}".format(q)`: fixed-point rendering of `q`
with exactly `res` digits after the decimal point. -/
def fixedFormat (q : ℚ) (res : ℕ) : String :=
  let m : ℕ := 10 ^ res
  let n : ℤ := rndHalfEvenInt (q.num * (m : ℤ)) q.den
  let sign : String := if n < 0 ∨ (n = 0 ∧ q < 0) then "-" else ""
  let a : ℕ := n.natAbs
  if res = 0 then sign ++ Nat.repr a
  else sign ++ Nat.repr (a / m) ++ "." ++ padLeft (Nat.repr (a % m)) res

/-- The formatted interval string of source line 93:
`"{0:0.{res}f}".format(f).rstrip('0').rstrip('.')`. -/
def stripFormatted (f : ℚ) (res : ℕ) : String :=
  rstripChar (rstripChar (fixedFormat f res) '0') '.'

/-- Python 2 `round(abs(f), res)` of source line 111, returned scaled
by `10 ^ res` (ties round away from zero; the argument is `abs f`, so
the result is a natural number). -/
def pyRoundAbsScaled (f : ℚ) (res : ℕ) : ℕ :=
  let n : ℕ := f.num.natAbs * 10 ^ res
  let d : ℕ := f.den
  (2 * n + d) / (2 * d)

/-- Python 2 `str` of the non-negative float `t / 10 ^ res` (integer
part, decimal point, fractional digits with trailing zeros stripped
but at least one digit kept, as in `str(5.0) = "5.0"`). -/
def decStr (t : ℕ) (res : ℕ) : String :=
  let m : ℕ := 10 ^ res
  let frac : String := rstripChar (padLeft (Nat.repr (t % m)) res) '0'
  Nat.repr (t / m) ++ "." ++ (if frac = "" then "0" else frac)

/-- The check `assert(f >= minf)` guarding `writeInterval` and
`writeVoltage` (skipped when the bound is `None`). -/
def checkMin (f : ℚ) : Option ℚ → Bool
  | none => true
  | some m => decide (m ≤ f)

/-- The check `assert(f <= maxf)` guarding `writeInterval` and
`writeVoltage` (skipped when the bound is `None`). -/
def checkMax (f : ℚ) : Option ℚ → Bool
  | none => true
  | some m => decide (f ≤ m)

/-- Source default `minf=0` of `writeInterval`. -/
def intervalDefaultMin : Option ℚ := some 0

/-- Source default `maxf=3999` of `writeInterval`. -/
def intervalDefaultMax : Option ℚ := some 3999

/-- Source default `res=6` of `writeInterval`. -/
def intervalDefaultRes : ℕ := 6

/-- Embedding of `writeInterval(f, minf, maxf, res)` (source lines
79-94): assert the bounds, format `f` at `res` decimals, strip
trailing zeros and a trailing point, then
`write(f_, ENTER, 0, ENTER)`. -/
def writeInterval (f : ℚ) (minf maxf : Option ℚ) (res : ℕ) : Trace :=
  if checkMin f minf then
    if checkMax f maxf then
      emit [stripFormatted f res, ENTER, "0", ENTER]
    else failed
  else failed

/-- Embedding of `writeVoltage(f, minf, maxf, res)` (source lines
96-116): assert the bounds, `write(round(abs(f), res), ENTER)`, then
`write('-')` when `f < 0`, then `write(ENTER)` unconditionally. -/
def writeVoltage (f : ℚ) (minf maxf : Option ℚ) (res : ℕ) : Trace :=
  if checkMin f minf then
    if checkMax f maxf then
      ⟨[decStr (pyRoundAbsScaled f res) res, ENTER]
        ++ (if f < 0 then ["-"] else []) ++ [ENTER], false⟩
    else failed
  else failed

/-- Embedding of `changeParadigm(paradigm)` (source lines 129-131). -/
def changeParadigm (paradigm : ℤ) : Trace :=
  if paradigm ∈ paradigms then emit [ALL, toString paradigm, ENTER]
  else failed

/-- The `mode` argument of `changeChannelMode`: a Python `int` (an
index) or one of the one-character mode strings. -/
inductive ModeArg where
  | idx (i : ℤ)
  | tok (s : String)
deriving DecidableEq

/-- Python `mode in self.cmList`: an `int` is a member iff it is one
of `0..5`; a string is never equal to an `int`. -/
def inCmList : ModeArg → Bool
  | .idx i => decide (i ∈ cmList)
  | .tok _ => false

/-- Python `mode in self.modes`: an `int` is never equal to a string;
a string is a member iff it is one of the six mode tokens. -/
def inModes : ModeArg → Bool
  | .idx _ => false
  | .tok s => decide (s ∈ modes)

/-- The token written for a mode argument: `self.modes[mode]` for an
index (only reached under `inCmList`), the string itself for a
token. -/
def modeToken : ModeArg → String
  | .idx i => modes.getD i.toNat ""
  | .tok s => s

/-- Embedding of `changeChannelMode(channel, mode)` (source lines
133-140). -/
def changeChannelMode (channel : ℤ) (mode : ModeArg) : Trace :=
  if channel ∈ channels then
    if inCmList mode then emit [modeToken mode, toString channel, ENTER]
    else if inModes mode then emit [modeToken mode, toString channel, ENTER]
    else failed
  else failed

/-- Embedding of `setChannelDuration(channel, duration)` (source lines
142-144): `write(DURATION, channel)` first, then
`writeInterval(duration, minf=40e-6)` with the other defaults. -/
def setChannelDuration (channel : ℤ) (duration : ℚ) : Trace :=
  seq (emit [DURATION, toString channel])
    (writeInterval duration (some (mkRat 40 1000000)) intervalDefaultMax
      intervalDefaultRes)

/-- Embedding of `setChannelInterval(channel, interval)` (source lines
146-148). -/
def setChannelInterval (channel : ℤ) (interval : ℚ) : Trace :=
  seq (emit [INTERVAL, toString channel])
    (writeInterval interval (some (mkRat 60 1000000)) intervalDefaultMax
      intervalDefaultRes)

/-- Embedding of `setChannelDelay(channel, delay)` (source lines
150-152). -/
def setChannelDelay (channel : ℤ) (delay : ℚ) : Trace :=
  seq (emit [DELAY, toString channel])
    (writeInterval delay (some (mkRat 100 1000000)) intervalDefaultMax
      intervalDefaultRes)

/-- Embedding of `setChannelM(channel, m)` (source lines 154-155):
a single unconditional write, no validation. -/
def setChannelM (channel : ℤ) (m : ℤ) : Trace :=
  emit [M, toString channel, toString m, ENTER, "0", ENTER]

/-- Embedding of `setChannelVoltage(channel, voltage)` (source lines
157-160): assert the channel, `write(V, channel)`, then
`writeVoltage(voltage, -12.7, 12.7, 1)`. -/
def setChannelVoltage (channel : ℤ) (voltage : ℚ) : Trace :=
  if channel ∈ channels then
    seq (emit [V, toString channel])
      (writeVoltage voltage (some (mkRat (-127) 10)) (some (mkRat 127 10)) 1)
  else failed

/-- Embedding of `trigger(channel)` (source lines 162-164). -/
def trigger (channel : ℤ) : Trace :=
  if channel ∈ channels then emit [toString channel] else failed

/-- Embedding of `clearParadigm()` (source lines 166-167). -/
def clearParadigm : Trace := emit [OFF, ALL, ALL, ENTER]

/-- Embedding of `copyParadigm(srcParadigm, destParadigm)` (source
lines 169-172). -/
def copyParadigm (srcParadigm destParadigm : ℤ) : Trace :=
  if srcParadigm ∈ paradigms then
    if destParadigm ∈ paradigms then
      emit [ALL, toString srcParadigm, toString destParadigm, ENTER]
    else failed
  else failed

/-- Embedding of `connectChannel(srcChannel, triggeredChannel)`
(source lines 174-177). -/
def connectChannel (srcChannel triggeredChannel : ℤ) : Trace :=
  if srcChannel ∈ channels then
    if triggeredChannel ∈ channels then
      emit [CONNECT, toString srcChannel, toString triggeredChannel, ENTER]
    else failed
  else failed

/-- Embedding of `disconnectChannel(srcChannel, triggeredChannel)`
(source lines 179-182). -/
def disconnectChannel (srcChannel triggeredChannel : ℤ) : Trace :=
  if srcChannel ∈ channels then
    if triggeredChannel ∈ channels then
      emit [DISCONNECT, toString srcChannel, toString triggeredChannel, ENTER]
    else failed
  else failed

/-! Constructor and connection state. -/

/-- The `connection` argument of `Master8.__init__`: `None`, a string
address, a `serial.SerialBase` object, or anything else (identified
here by its `repr`). -/
inductive ConnArg where
  | noneArg
  | addr (url : String)
  | serialObj (obj : String)
  | other (rep : String)
deriving DecidableEq

/-- Outcome of `Master8.__init__` (source lines 63-72): whether the
attribute `self.c` was set, whether an exception was raised, and
whether the unknown-connection message was printed. -/
structure InitResult where
  connectionSet : Bool
  raisedError : Bool
  printedError : Bool
deriving DecidableEq, Repr

/-- Embedding of `Master8.__init__` (source lines 63-72): `None`
creates a default `serial.Serial()`, a string is opened with
`serial_for_url`, a `SerialBase` instance is adopted, and anything
else merely prints `"Unknown connection: ..."`, raising nothing and
leaving `self.c` unset. -/
def initMaster8 : ConnArg → InitResult
  | .noneArg => ⟨true, false, false⟩
  | .addr _ => ⟨true, false, false⟩
  | .serialObj _ => ⟨true, false, false⟩
  | .other _ => ⟨false, false, true⟩

/-- The `connected` property getter (source lines 118-122): returns
`self.c.isOpen()`; the connection's open state is the `Bool`. -/
def connectedGet (isOpenState : Bool) : Bool := isOpenState

/-- The `connected` property setter (source lines 124-127): a falsy
value closes the connection, a truthy value does nothing. -/
def connectedSet (isOpenState : Bool) (value : Bool) : Bool :=
  if !value then false else isOpenState

/-! Helper lemmas shared by the claim theorems. -/

theorem seq_emit (l : List String) (t : Trace) :
    seq (emit l) t = ⟨l ++ t.written, t.err⟩ := by
  simp [seq, emit]

theorem writeInterval_ok {f : ℚ} {mn mx : Option ℚ} {r : ℕ}
    (h1 : checkMin f mn = true) (h2 : checkMax f mx = true) :
    writeInterval f mn mx r = ⟨[stripFormatted f r, ENTER, "0", ENTER], false⟩ := by
  simp [writeInterval, h1, h2, emit]

theorem writeInterval_failed {f : ℚ} {mn mx : Option ℚ} {r : ℕ}
    (h : (writeInterval f mn mx r).err = true) :
    writeInterval f mn mx r = ⟨[], true⟩ := by
  by_cases h1 : checkMin f mn <;> by_cases h2 : checkMax f mx <;>
    simp [writeInterval, h1, h2, emit, failed] at h ⊢

theorem writeVoltage_failed {f : ℚ} {mn mx : Option ℚ} {r : ℕ}
    (h : (writeVoltage f mn mx r).err = true) :
    writeVoltage f mn mx r = ⟨[], true⟩ := by
  by_cases h1 : checkMin f mn <;> by_cases h2 : checkMax f mx <;>
    simp [writeVoltage, h1, h2, failed] at h ⊢

theorem writeInterval_err_false_iff (f a b : ℚ) (r : ℕ) :
    (writeInterval f (some a) (some b) r).err = false ↔ a ≤ f ∧ f ≤ b := by
  by_cases h1 : a ≤ f <;> by_cases h2 : f ≤ b <;>
    simp [writeInterval, checkMin, checkMax, h1, h2, emit, failed]

theorem changeChannelMode_idx_eq_tok (ch i : ℤ) (hi : i ∈ cmList) :
    changeChannelMode ch (.idx i) =
      changeChannelMode ch (.tok (modes.getD i.toNat "")) := by
  simp only [cmList, List.mem_cons, List.not_mem_nil, or_false] at hi
  by_cases hch : ch ∈ channels <;>
    rcases hi with rfl | rfl | rfl | rfl | rfl | rfl <;>
    simp [changeChannelMode, hch, inCmList, inModes, modeToken, cmList, modes,
      OFF, FREE_RUN, TRAIN, TRIG, DC, GATE]

theorem changeChannelMode_idx (ch : ℤ) (hch : ch ∈ channels) (i : ℤ)
    (hi : i ∈ cmList) :
    changeChannelMode ch (.idx i) =
      ⟨[modes.getD i.toNat "", toString ch, ENTER], false⟩ := by
  simp only [cmList, List.mem_cons, List.not_mem_nil, or_false] at hi
  rcases hi with rfl | rfl | rfl | rfl | rfl | rfl <;>
    simp [changeChannelMode, hch, inCmList, inModes, modeToken, cmList, modes, emit]

theorem changeChannelMode_badMode (ch : ℤ) (m : ModeArg)
    (h1 : inCmList m = false) (h2 : inModes m = false) :
    changeChannelMode ch m = ⟨[], true⟩ := by
  by_cases hch : ch ∈ channels <;>
    simp [changeChannelMode, hch, h1, h2, failed]

/-- C4: writeInterval formats the value as a fixed-point decimal with
`precision` digits after the point, strips trailing zeros and a
trailing decimal point, and emits `<formatted> ENTER 0 ENTER`;
`writeInterval(0.00004, min=40e-6)` emits `0.00004 E 0 E`, formatting
`1.000000` at precision 6 yields `"1"`, and
`writeInterval(39e-6, min=40e-6)` raises InvalidArgument. -/
theorem C4_writeInterval :
    (∀ (f : ℚ) (mn mx : Option ℚ) (r : ℕ),
      checkMin f mn = true → checkMax f mx = true →
      writeInterval f mn mx r =
        ⟨[stripFormatted f r, ENTER, "0", ENTER], false⟩) ∧
    writeInterval (mkRat 40 1000000) (some (mkRat 40 1000000))
      intervalDefaultMax intervalDefaultRes =
      ⟨["0.00004", ENTER, "0", ENTER], false⟩ ∧
    stripFormatted 1 6 = "1" ∧
    writeInterval (mkRat 39 1000000) (some (mkRat 40 1000000))
      intervalDefaultMax intervalDefaultRes = ⟨[], true⟩ ∧
    (mkRat 40 1000000 : ℚ) = 40 / 1000000 := by
  refine ⟨fun f mn mx r h1 h2 => writeInterval_ok h1 h2,
    by decide, by decide, by decide, by norm_num [Rat.mkRat_eq_div]⟩

/-- C4 witness: the general formatting clause of `C4_writeInterval`
applied at the concrete input 1 with both bounds disabled. -/
theorem C4_witness :
    writeInterval 1 none none 6 =
      ⟨[stripFormatted 1 6, ENTER, "0", ENTER], false⟩ :=
  C4_writeInterval.1 1 none none 6 rfl rfl

/-- C6: for every paradigm p in [1,8], changeParadigm p emits exactly
the tokens `A p E`, and for every p outside [1,8] it raises an
InvalidArgument-kind error. -/
theorem C6_changeParadigm (p : ℤ) :
    (p ∈ paradigms → changeParadigm p = ⟨[ALL, toString p, ENTER], false⟩) ∧
    (p ∉ paradigms → changeParadigm p = ⟨[], true⟩) := by
  constructor <;> intro h <;> simp [changeParadigm, h, emit, failed]

/-- C6 witness: `C6_changeParadigm` applied at the in-range paradigm 3
and the out-of-range paradigm 0. -/
theorem C6_witness :
    changeParadigm 3 = ⟨[ALL, toString (3 : ℤ), ENTER], false⟩ ∧
    changeParadigm 0 = ⟨[], true⟩ :=
  ⟨(C6_changeParadigm 3).1 (by decide), (C6_changeParadigm 0).2 (by decide)⟩

/-- C7: the source contradicts the spec intent here: an unrecognized
connection argument does not fail construction; `__init__` merely
prints `Unknown connection: ...`, raises nothing, and leaves the
attribute `self.c` unset, so an encoder with an unset connection is
produced. -/
theorem C7_initUnknownConnection :
    initMaster8 (.other "42") = ⟨false, false, true⟩ ∧
    (initMaster8 (.other "42")).raisedError = false ∧
    (initMaster8 (.other "42")).connectionSet = false := by
  refine ⟨rfl, rfl, rfl⟩

/-- C8: connected reads exactly the open state of the underlying
connection; assigning false closes it, so a subsequent read returns
false; assigning true leaves the state unchanged (it does not
establish a connection). -/
theorem C8_connected :
    ∀ s : Bool,
      connectedGet s = s ∧
      connectedGet (connectedSet s false) = false ∧
      connectedSet s true = s := by decide

/-- C9: the fixed token table maps each command name to exactly the
single ASCII character of the spec table, and the mode list is ordered
exactly Off, FreeRun, Train, Trigger, DC, Gate at indices 0-5. -/
theorem C9_tokenTable :
    DURATION = "D" ∧ INTERVAL = "I" ∧ DELAY = "L" ∧ M = "M" ∧ V = "V" ∧
    JUMP = "J" ∧ FREE_RUN = "F" ∧ TRAIN = "N" ∧ TRIG = "G" ∧ DC = "C" ∧
    GATE = "T" ∧ OFF = "O" ∧ TIMER = "W" ∧ ALL = "A" ∧ CLOCK_DISP = "Q" ∧
    STOP_WATCH = "S" ∧ CLOCK_RESET = "R" ∧ CHECK = "H" ∧ CLEAR_DISP = "Y" ∧
    CONNECT = "X" ∧ DISCONNECT = "Z" ∧ ENTER = "E" ∧ BEGIN = "B" ∧
    modes = [OFF, FREE_RUN, TRAIN, TRIG, DC, GATE] ∧
    modes.getD 0 "" = OFF ∧ modes.getD 1 "" = FREE_RUN ∧
    modes.getD 2 "" = TRAIN ∧ modes.getD 3 "" = TRIG ∧
    modes.getD 4 "" = DC ∧ modes.getD 5 "" = GATE ∧
    modes.length = 6 := by decide

/-- C1 counterexample: setChannelDuration(1, 0) fails its interval
bound (0 < 40e-6) with an InvalidArgument-kind error, yet the tokens
`D 1` have already been written, so the claim that no bytes at all are
written when an operation fails is false. -/
theorem C1_counterexample :
    (setChannelDuration 1 0).err = true ∧
    (setChannelDuration 1 0).written = [DURATION, toString (1 : ℤ)] ∧
    (setChannelDuration 1 0).written ≠ [] := by decide

/-- C1 (amended): the operations whose own asserts guard their single
write (changeParadigm, changeChannelMode, trigger, copyParadigm,
connectChannel, disconnectChannel) write nothing when they fail; but
setChannelDuration, setChannelInterval and setChannelDelay write their
`<TOKEN> <channel>` prefix before the interval bound is checked, and
setChannelVoltage writes `V <channel>` before the voltage bounds are
checked, so those leave a partial command written when they fail
(setChannelM performs no validation and never fails). -/
theorem C1_amended :
    (∀ p : ℤ, (changeParadigm p).err = true → (changeParadigm p).written = []) ∧
    (∀ (ch : ℤ) (m : ModeArg), (changeChannelMode ch m).err = true →
      (changeChannelMode ch m).written = []) ∧
    (∀ ch : ℤ, (trigger ch).err = true → (trigger ch).written = []) ∧
    (∀ s d : ℤ, (copyParadigm s d).err = true →
      (copyParadigm s d).written = []) ∧
    (∀ s d : ℤ, (connectChannel s d).err = true →
      (connectChannel s d).written = []) ∧
    (∀ s d : ℤ, (disconnectChannel s d).err = true →
      (disconnectChannel s d).written = []) ∧
    (∀ (ch : ℤ) (x : ℚ), (setChannelDuration ch x).err = true →
      (setChannelDuration ch x).written = [DURATION, toString ch]) ∧
    (∀ (ch : ℤ) (x : ℚ), (setChannelInterval ch x).err = true →
      (setChannelInterval ch x).written = [INTERVAL, toString ch]) ∧
    (∀ (ch : ℤ) (x : ℚ), (setChannelDelay ch x).err = true →
      (setChannelDelay ch x).written = [DELAY, toString ch]) ∧
    (∀ (ch : ℤ) (x : ℚ), (setChannelVoltage ch x).err = true →
      (setChannelVoltage ch x).written = [] ∨
        (setChannelVoltage ch x).written = [V, toString ch]) ∧
    (∀ ch m : ℤ, (setChannelM ch m).err = false) := by
  refine ⟨?_, ?_, ?_, ?_, ?_, ?_, ?_, ?_, ?_, ?_, ?_⟩
  · intro p h
    revert h
    by_cases hp : p ∈ paradigms <;> simp [changeParadigm, hp, emit, failed]
  · intro ch m h
    revert h
    by_cases hch : ch ∈ channels <;> by_cases h1 : inCmList m <;>
      by_cases h2 : inModes m <;>
      simp [changeChannelMode, hch, h1, h2, emit, failed]
  · intro ch h
    revert h
    by_cases hch : ch ∈ channels <;> simp [trigger, hch, emit, failed]
  · intro s d h
    revert h
    by_cases hs : s ∈ paradigms <;> by_cases hd : d ∈ paradigms <;>
      simp [copyParadigm, hs, hd, emit, failed]
  · intro s d h
    revert h
    by_cases hs : s ∈ channels <;> by_cases hd : d ∈ channels <;>
      simp [connectChannel, hs, hd, emit, failed]
  · intro s d h
    revert h
    by_cases hs : s ∈ channels <;> by_cases hd : d ∈ channels <;>
      simp [disconnectChannel, hs, hd, emit, failed]
  · intro ch x h
    rw [setChannelDuration, seq_emit] at h ⊢
    rw [writeInterval_failed (by simpa using h)]
    simp
  · intro ch x h
    rw [setChannelInterval, seq_emit] at h ⊢
    rw [writeInterval_failed (by simpa using h)]
    simp
  · intro ch x h
    rw [setChannelDelay, seq_emit] at h ⊢
    rw [writeInterval_failed (by simpa using h)]
    simp
  · intro ch x h
    revert h
    by_cases hch : ch ∈ channels
    · rw [setChannelVoltage, if_pos hch, seq_emit]
      intro h
      rw [writeVoltage_failed (by simpa using h)]
      simp
    · rw [setChannelVoltage, if_neg hch]
      intro _
      exact Or.inl rfl
  · intro ch m
    simp [setChannelM, emit]

/-- C1 witness: the amended claim applied at a failing changeParadigm
call (nothing written), a failing setChannelDuration call (the prefix
`D 2` already written), and a failing setChannelVoltage call (the
prefix `V 1` already written). -/
theorem C1_witness :
    (changeParadigm 0).written = [] ∧
    (setChannelDuration 2 0).written = [DURATION, toString (2 : ℤ)] ∧
    ((setChannelVoltage 1 13).written = [] ∨
      (setChannelVoltage 1 13).written = [V, toString (1 : ℤ)]) :=
  ⟨C1_amended.1 0 (by decide),
   C1_amended.2.2.2.2.2.2.1 2 0 (by decide),
   C1_amended.2.2.2.2.2.2.2.2.2.1 1 13 (by decide)⟩

/-- C2 counterexample: Python 2 renders `round(abs(-5.0), 1)` as the
string `5.0`, not `5`, and the final ENTER is written unconditionally,
so `writeVoltage(-5.0)` emits `5.0 E - E` (not `5 E - E`) and
`writeVoltage(5.0)` emits `5.0 E E` (not `5 E` alone). -/
theorem C2_counterexample :
    (writeVoltage (-5) (some (mkRat (-127) 10)) (some (mkRat 127 10))
        1).written = ["5.0", ENTER, "-", ENTER] ∧
    (writeVoltage (-5) (some (mkRat (-127) 10)) (some (mkRat 127 10))
        1).written ≠ ["5", ENTER, "-", ENTER] ∧
    (writeVoltage 5 (some (mkRat (-127) 10)) (some (mkRat 127 10))
        1).written = ["5.0", ENTER, ENTER] ∧
    (writeVoltage 5 (some (mkRat (-127) 10)) (some (mkRat 127 10))
        1).written ≠ ["5", ENTER] := by decide

/-- C2 (amended): writeVoltage emits the decimal rendering of the
rounded absolute value (with its fractional digit kept, as in `5.0`)
followed by ENTER, then a minus-sign token when the original value was
negative, then one further unconditional ENTER; so writeVoltage(-5.0)
emits `5.0 E - E` and writeVoltage(5.0) emits `5.0 E E`. -/
theorem C2_amended :
    (∀ (f : ℚ) (mn mx : Option ℚ) (r : ℕ),
      checkMin f mn = true → checkMax f mx = true →
      (writeVoltage f mn mx r).written =
        [decStr (pyRoundAbsScaled f r) r, ENTER] ++
          (if f < 0 then ["-", ENTER] else [ENTER])) ∧
    writeVoltage (-5) (some (mkRat (-127) 10)) (some (mkRat 127 10)) 1 =
      ⟨["5.0", ENTER, "-", ENTER], false⟩ ∧
    writeVoltage 5 (some (mkRat (-127) 10)) (some (mkRat 127 10)) 1 =
      ⟨["5.0", ENTER, ENTER], false⟩ := by
  refine ⟨?_, by decide, by decide⟩
  intro f mn mx r h1 h2
  by_cases hf : f < 0 <;> simp [writeVoltage, h1, h2, hf]

/-- C2 witness: the general clause of `C2_amended` applied at the
concrete in-bounds input -5 with the default voltage bounds. -/
theorem C2_witness :
    (writeVoltage (-5) (some (mkRat (-127) 10)) (some (mkRat 127 10))
        1).written =
      [decStr (pyRoundAbsScaled (-5) 1) 1, ENTER] ++
        (if (-5 : ℚ) < 0 then ["-", ENTER] else [ENTER]) :=
  C2_amended.1 (-5) (some (mkRat (-127) 10)) (some (mkRat 127 10)) 1
    (by decide) (by decide)

/-- C3 counterexample: 4000 is at least the documented minimum 40e-6,
yet setChannelDuration(1, 4000) raises, because writeInterval keeps
its default maximum 3999; the claimed unbounded maximum is false. -/
theorem C3_counterexample :
    (mkRat 40 1000000 : ℚ) ≤ 4000 ∧
    (setChannelDuration 1 4000).err = true := by decide

/-- C3 (amended): setChannelDuration succeeds exactly for durations in
[40e-6, 3999] (the writeInterval default maximum, not unbounded),
emitting `DURATION <channel>` followed by the writeInterval output;
likewise setChannelInterval on [60e-6, 3999] and setChannelDelay on
[100e-6, 3999]. -/
theorem C3_amended :
    intervalDefaultMax = some 3999 ∧
    ∀ (ch : ℤ) (x : ℚ),
      ((setChannelDuration ch x).err = false ↔
        mkRat 40 1000000 ≤ x ∧ x ≤ 3999) ∧
      ((setChannelInterval ch x).err = false ↔
        mkRat 60 1000000 ≤ x ∧ x ≤ 3999) ∧
      ((setChannelDelay ch x).err = false ↔
        mkRat 100 1000000 ≤ x ∧ x ≤ 3999) ∧
      (mkRat 40 1000000 ≤ x → x ≤ 3999 →
        (setChannelDuration ch x).written =
          [DURATION, toString ch] ++
            [stripFormatted x intervalDefaultRes, ENTER, "0", ENTER]) := by
  refine ⟨rfl, fun ch x => ⟨?_, ?_, ?_, ?_⟩⟩
  · rw [setChannelDuration, seq_emit]
    simpa [intervalDefaultMax] using
      writeInterval_err_false_iff x (mkRat 40 1000000) 3999 intervalDefaultRes
  · rw [setChannelInterval, seq_emit]
    simpa [intervalDefaultMax] using
      writeInterval_err_false_iff x (mkRat 60 1000000) 3999 intervalDefaultRes
  · rw [setChannelDelay, seq_emit]
    simpa [intervalDefaultMax] using
      writeInterval_err_false_iff x (mkRat 100 1000000) 3999 intervalDefaultRes
  · intro hmin hmax
    rw [setChannelDuration, seq_emit,
      writeInterval_ok (by simp [checkMin, hmin])
        (by simp [checkMax, intervalDefaultMax, hmax])]

/-- C3 witness: the amended claim applied at channel 1 and duration 1,
which lies inside all three amended ranges. -/
theorem C3_witness :
    (setChannelDuration 1 1).err = false ∧
    (setChannelDuration 1 1).written =
      [DURATION, toString (1 : ℤ)] ++
        [stripFormatted 1 intervalDefaultRes, ENTER, "0", ENTER] :=
  ⟨((C3_amended.2 1 1).1).mpr ⟨by decide, by decide⟩,
   (C3_amended.2 1 1).2.2.2 (by decide) (by decide)⟩

/-- C5: for every channel in [1,8] and mode index i in 0..5, giving
the mode as the index i or as the i-th token of the fixed mode list
produces identical output `<token> <channel> E`; in particular
changeChannelMode(3, 2) and changeChannelMode(3, TRAIN) both emit
`N 3 E`; a mode matching neither form raises an InvalidArgument-kind
error. -/
theorem C5_changeChannelMode :
    (∀ ch : ℤ, ch ∈ channels → ∀ i : ℤ, i ∈ cmList →
      changeChannelMode ch (.idx i) =
        changeChannelMode ch (.tok (modes.getD i.toNat "")) ∧
      changeChannelMode ch (.idx i) =
        ⟨[modes.getD i.toNat "", toString ch, ENTER], false⟩) ∧
    changeChannelMode 3 (.idx 2) = ⟨[TRAIN, toString (3 : ℤ), ENTER], false⟩ ∧
    changeChannelMode 3 (.tok TRAIN) =
      ⟨[TRAIN, toString (3 : ℤ), ENTER], false⟩ ∧
    (∀ (ch : ℤ) (m : ModeArg), inCmList m = false → inModes m = false →
      changeChannelMode ch m = ⟨[], true⟩) :=
  ⟨fun ch hch i hi =>
    ⟨changeChannelMode_idx_eq_tok ch i hi, changeChannelMode_idx ch hch i hi⟩,
   by decide, by decide, changeChannelMode_badMode⟩

/-- C5 witness: the identical-output clause applied at channel 4 and
index 0, and the failure clause applied at the unrecognized mode
string Z. -/
theorem C5_witness :
    (changeChannelMode 4 (.idx 0) =
        changeChannelMode 4 (.tok (modes.getD (0 : ℤ).toNat "")) ∧
      changeChannelMode 4 (.idx 0) =
        ⟨[modes.getD (0 : ℤ).toNat "", toString (4 : ℤ), ENTER], false⟩) ∧
    changeChannelMode 5 (.tok "Z") = ⟨[], true⟩ :=
  ⟨C5_changeChannelMode.1 4 (by decide) 0 (by decide),
   C5_changeChannelMode.2.2.2 5 (.tok "Z") (by decide) (by decide)⟩

/-- C10: every writeInterval call that leaves the maximum bound at its
default rejects values above 3999 before the interval value is
written, so setChannelDuration, setChannelInterval and setChannelDelay
reject every value above 3999. -/
theorem C10_defaultMaxCap :
    intervalDefaultMax = some 3999 ∧
    ∀ f : ℚ, 3999 < f →
      (∀ (mn : Option ℚ) (r : ℕ),
        writeInterval f mn intervalDefaultMax r = ⟨[], true⟩) ∧
      ∀ ch : ℤ,
        (setChannelDuration ch f).err = true ∧
        (setChannelInterval ch f).err = true ∧
        (setChannelDelay ch f).err = true := by
  refine ⟨rfl, fun f hf => ⟨?_, ?_⟩⟩
  · intro mn r
    have hmax : checkMax f intervalDefaultMax = false := by
      simp [checkMax, intervalDefaultMax, not_le.mpr hf]
    by_cases h1 : checkMin f mn <;>
      simp [writeInterval, h1, hmax, failed]
  · intro ch
    have hmax : checkMax f intervalDefaultMax = false := by
      simp [checkMax, intervalDefaultMax, not_le.mpr hf]
    refine ⟨?_, ?_, ?_⟩ <;>
      [rw [setChannelDuration, seq_emit]; rw [setChannelInterval, seq_emit];
        rw [setChannelDelay, seq_emit]] <;>
      by_cases h1 : checkMin f (some (mkRat 40 1000000)) <;>
      by_cases h2 : checkMin f (some (mkRat 60 1000000)) <;>
      by_cases h3 : checkMin f (some (mkRat 100 1000000)) <;>
      simp [writeInterval, h1, h2, h3, hmax, failed]

/-- C10 witness: the cap applied at the concrete over-limit value 4000
for a bare writeInterval call and for setChannelDuration on
channel 1. -/
theorem C10_witness :
    writeInterval 4000 intervalDefaultMin intervalDefaultMax
      intervalDefaultRes = ⟨[], true⟩ ∧
    (setChannelDuration 1 4000).err = true :=
  ⟨(C10_defaultMaxCap.2 4000 (by decide)).1 intervalDefaultMin
      intervalDefaultRes,
   ((C10_defaultMaxCap.2 4000 (by decide)).2 1).1⟩

end Master8
